import Mathlib

/-!
Shallow embedding of `main.py` of the fyers-ai-bot repository: a one-shot
pipeline that classifies instrument tokens, fetches quotes (or a mocked
fallback price), builds a text snapshot, asks an oracle for a signal,
parses the signal, optionally places an order and appends a journal line.

Python string builtins used by the code are modelled on `List Char`
(Python strings are sequences of code points, so list-of-char is the
faithful model for `upper`, slicing, `in`, `strip`, `startswith`).
-/

/-- Python `str.upper()` restricted to ASCII, which is all the code feeds it. -/
def pyUpper (s : String) : String := String.mk (s.data.map Char.toUpper)

/-- Python `s.startswith(p)`. -/
def pyStartsWith (s p : String) : Bool := p.data.isPrefixOf s.data

/-- Python slicing `s[n:]`. -/
def pyDrop (s : String) (n : Nat) : String := String.mk (s.data.drop n)

/-- Substring search on char lists, the semantics of Python `needle in hay`. -/
def hasSub (hay needle : List Char) : Bool :=
  match hay with
  | [] => needle.isEmpty
  | c :: t => needle.isPrefixOf (c :: t) || hasSub t needle

/-- Python `needle in hay` for strings. -/
def pyIn (needle hay : String) : Bool := hasSub hay.data needle.data

/-- The whitespace characters of Python `str.strip()` (ASCII range). -/
def pySpace (c : Char) : Bool :=
  c = ' ' || c = '\t' || c = '\n' || c = '\r' || c = '\x0b' || c = '\x0c'

/-- Python `s.strip()`. -/
def pyStrip (s : String) : String :=
  String.mk (((s.data.dropWhile pySpace).reverse.dropWhile pySpace).reverse)

/-- Python slicing `s[:n]`. -/
def pyTake (s : String) (n : Nat) : String := String.mk (s.data.take n)

/-- Python truthiness of a string (`""` is falsy). -/
def pyTruthy (s : String) : Bool := s != ""

/-- Python truthiness of an optional string (`None` and `""` are falsy),
the shape of `os.getenv` results. -/
def pyTruthyOpt (o : Option String) : Bool :=
  match o with
  | some s => s != ""
  | none => false

/-- `detect_type` from main.py lines 47-57: classify a raw symbol token into
an asset-type tag and a key. The prefix tests run on an uppercased copy `s`,
the key is sliced from the original `symbol`. -/
def detect_type (symbol : String) : String × String :=
  let s := pyUpper symbol
  if pyStartsWith s "OPTION:" then ("OPTION", pyDrop symbol 7)
  else if pyStartsWith s "ETF:" then ("ETF", pyDrop symbol 4)
  else if pyStartsWith s "MF:" then ("MF", pyDrop symbol 3)
  else if pyIn ":" symbol then ("EQUITY", symbol)
  else ("INDEX", symbol)

/-- `parse_signal` from main.py lines 127-135: uppercase the text, then look
for BUY, SELL, HOLD in that order; first hit wins, else UNKNOWN. -/
def parse_signal (text : String) : String :=
  let t := pyUpper text
  if pyIn "BUY" t then "BUY"
  else if pyIn "SELL" t then "SELL"
  else if pyIn "HOLD" t then "HOLD"
  else "UNKNOWN"

/-- The JSON body of a successful quote response. Each field is
`Option (Option Int)`: the outer layer is key presence (for `dict.get`
fallback), the inner layer is JSON `null` versus a number. -/
structure QuoteData where
  last_price : Option (Option Int)
  lp : Option (Option Int)
deriving DecidableEq

/-- `data.get("last_price", data.get("lp", None))` from main.py line 77. -/
def pyGetPrice (data : QuoteData) : Option Int :=
  match data.last_price with
  | some v => v
  | none =>
    match data.lp with
    | some v => v
    | none => none

/-- The dict returned by `fetch_market_data`. `last_price = some v` models the
success shape (key present, value possibly null); `last_price = none` models
the error shape, where the key is absent. `raw` is the raw JSON kept on a
live success. -/
structure QuoteResult where
  symbol : String
  type : String
  last_price : Option (Option Int)
  error : Option String
  raw : Option QuoteData
deriving DecidableEq

/-- The payload built in `main()` lines 194-199. -/
structure OrderPayload where
  timestamp : Int
  signal : String
  reason : String
  primary_symbol : String
deriving DecidableEq

/-- The value returned by `fyers_order`: either one of the locally built
dicts `{status, detail[, payload]}` or the brokerage response body verbatim. -/
inductive OrderResponseVal where
  | dict (status : String) (detail : String) (payload : Option OrderPayload)
  | broker (body : String)
deriving DecidableEq

/-- The environment of one run: the configuration read at module load plus
the outcomes of the external effects (quote service, oracle, order endpoint,
prompt file, journal filesystem, the process's string hash). `Except.error`
carries `str(e)` of the exception the corresponding Python call would raise. -/
structure Env where
  symbols : List String
  dry_run : Bool
  fyers_access_token : Option String
  fyers_quote_url : String
  fyers_order_url : String
  promptFile : Option String
  quote : String → String → Except String QuoteData
  oracle : String → String → Except String String
  orderNet : OrderPayload → Except String String
  journalOk : Bool
  pyHash : String → Int
  timestamp : String
  unixTime : Int

/-- `load_system_prompt` from main.py lines 32-41: file contents, or the
built-in default directive when reading fails. -/
def load_system_prompt (env : Env) : String :=
  match env.promptFile with
  | some contents => contents
  | none =>
    "You are an expert Indian financial market analyst. " ++
    "Analyze Index, Stocks, Options, ETFs, Mutual Funds. " ++
    "Provide BUY/SELL/HOLD signals with reasons."

/-- `fetch_market_data` from main.py lines 63-85. With a truthy quote URL and
token it tries the live request (`env.quote key asset_type` is the combined
outcome of `requests.get`, `raise_for_status` and `.json()`), catching any
exception into the error dict. Otherwise it synthesizes the mocked price
`round(1000 + (hash(symbol) % 600), 2)` (an integer, so `round` is the
identity); `hash` is the process's runtime string hash `env.pyHash`. -/
def fetch_market_data (env : Env) (symbol : String) : QuoteResult :=
  let at_key := detect_type symbol
  if pyTruthy env.fyers_quote_url && pyTruthyOpt env.fyers_access_token then
    match env.quote at_key.2 at_key.1 with
    | .ok data =>
      { symbol := symbol, type := at_key.1, last_price := some (pyGetPrice data),
        error := none, raw := some data }
    | .error e =>
      { symbol := symbol, type := at_key.1, last_price := none,
        error := some e, raw := none }
  else
    let mock_price : Int := 1000 + env.pyHash symbol % 600
    { symbol := symbol, type := at_key.1, last_price := some (some mock_price),
      error := none, raw := none }

/-- Python `str(...)` of the `last_price` value as the f-string renders it:
a number prints itself, an absent key or null prints `None`. -/
def pyShowPrice (o : Option (Option Int)) : String :=
  match o with
  | some (some n) => toString n
  | _ => "None"

/-- Python `"\n".join(lines)`. -/
def pyJoin (sep : String) (xs : List String) : String := String.intercalate sep xs

/-- `build_market_snapshot` from main.py lines 91-102: one line per result,
the error line when the `error` key is present, else the price line;
joined by newline between a fixed header and a fixed instruction. -/
def build_market_snapshot (symbol_data : List QuoteResult) : String :=
  let lines := symbol_data.foldl (fun lines s =>
    match s.error with
    | some e => lines ++ [s.symbol ++ " (" ++ s.type ++ "): ERROR → " ++ e]
    | none => lines ++ [s.symbol ++ " (" ++ s.type ++ "): price=" ++ pyShowPrice s.last_price]) []
  "Market Snapshot:\n" ++ pyJoin "\n" lines ++
    "\n\nProvide a single-line BUY/SELL/HOLD signal **for each symbol** with a short reason."

/-- `ask_gpt` from main.py lines 108-121: the oracle's reply stripped of
surrounding whitespace, or the synthesized error string on any exception. -/
def ask_gpt (env : Env) (system_prompt market_snapshot : String) : String :=
  match env.oracle system_prompt market_snapshot with
  | .ok content => pyStrip content
  | .error e => "ERROR contacting OpenAI: " ++ e

/-- The result of one call to `fyers_order`, together with whether the call
reached the network (`requests.post` was attempted). -/
structure OrderOutcome where
  networkCalled : Bool
  response : OrderResponseVal
deriving DecidableEq

/-- `fyers_order` from main.py lines 141-157: dry-run short-circuit, then the
missing-configuration guard (Python truthiness of URL and token), then the
live POST whose exception is caught into an error dict. -/
def fyers_order (env : Env) (payload : OrderPayload) : OrderOutcome :=
  if env.dry_run then
    ⟨false, .dict "dry_run" "Order not executed" (some payload)⟩
  else if !(pyTruthy env.fyers_order_url && pyTruthyOpt env.fyers_access_token) then
    ⟨false, .dict "error" "Order URL or token missing" none⟩
  else
    match env.orderNet payload with
    | .ok body => ⟨true, .broker body⟩
    | .error e => ⟨true, .dict "error" e none⟩

/-- The record serialized by `json.dumps` in main.py lines 205-212. The
journal is modelled as the list of appended records (the exact JSON text is
operator-facing formatting the spec leaves at the interface boundary). -/
structure RunRecord where
  time : String
  symbols : List String
  snapshot : String
  signal_text : String
  parsed_signal : String
  order_response : OrderResponseVal
deriving DecidableEq

/-- `write_log` from main.py lines 163-168: append when the filesystem
cooperates; any exception is swallowed and the file is left as it was. -/
def write_log (journalOk : Bool) (file0 : List RunRecord) (entry : RunRecord) : List RunRecord :=
  if journalOk then file0 ++ [entry] else file0

/-- The console summary printed at main.py lines 217-220. -/
structure Summary where
  banner : String
  signal : String
  reason_trunc : String
  order_response : OrderResponseVal
deriving DecidableEq

/-- Everything one run produces: the run record, the journal after the run,
and the console summary. -/
structure RunOutcome where
  record : RunRecord
  journal : List RunRecord
  summary : Summary
deriving DecidableEq

/-- `main()` from main.py lines 174-220, as a function of the environment and
the journal contents before the run. -/
def mainRun (env : Env) (file0 : List RunRecord) : RunOutcome :=
  let system_prompt := load_system_prompt env
  let data_list := env.symbols.foldl (fun acc sym =>
    let s := pyStrip sym
    if s != "" then acc ++ [fetch_market_data env s] else acc) []
  let snapshot := build_market_snapshot data_list
  let gpt_result := ask_gpt env system_prompt snapshot
  let signal := parse_signal gpt_result
  let order_payload : OrderPayload :=
    { timestamp := env.unixTime, signal := signal, reason := gpt_result,
      primary_symbol := match env.symbols with
        | [] => "N/A"
        | s0 :: _ => pyStrip s0 }
  let order_response := fyers_order env order_payload
  let record : RunRecord :=
    { time := env.timestamp, symbols := env.symbols, snapshot := snapshot,
      signal_text := gpt_result, parsed_signal := signal,
      order_response := order_response.response }
  { record := record
    journal := write_log env.journalOk file0 record
    summary :=
      { banner := "✔ Bot run complete", signal := signal,
        reason_trunc := pyTake gpt_result 200,
        order_response := order_response.response } }

/-- The per-result snapshot line as the spec words it: the ERROR line when an
error is present, else the price line. Stated separately from
`build_market_snapshot` so the builder can be proved to refine it. -/
def renderLineSpec (r : QuoteResult) : String :=
  match r.error with
  | some e => r.symbol ++ " (" ++ r.type ++ "): ERROR → " ++ e
  | none => r.symbol ++ " (" ++ r.type ++ "): price=" ++ pyShowPrice r.last_price

/-- A base environment for concrete instances: default configuration (no
quote or order endpoint, no token, dry-run on, journal writable) and every
external call failing. -/
def envBase : Env where
  symbols := ["NIFTY50"]
  dry_run := true
  fyers_access_token := none
  fyers_quote_url := ""
  fyers_order_url := ""
  promptFile := none
  quote := fun _ _ => .error "quote down"
  oracle := fun _ _ => .error "oracle down"
  orderNet := fun _ => .error "order down"
  journalOk := true
  pyHash := fun _ => 0
  timestamp := "2026-01-01T00:00:00"
  unixTime := 0

/-- A concrete order payload for instances. -/
def payload0 : OrderPayload :=
  { timestamp := 0, signal := "BUY", reason := "r", primary_symbol := "NIFTY50" }

/-- Live mode with neither order endpoint nor token configured. -/
def envLiveMissing : Env := { envBase with dry_run := false }

/-- A process whose runtime string hash differs from `envBase`'s. -/
def envHashB : Env := { envBase with pyHash := fun _ => 1 }

/-- An environment whose oracle call fails with detail text "buy". -/
def envOracleBuy : Env := { envBase with oracle := fun _ _ => .error "buy" }

/-- Live mode, fully configured, with every external call failing. -/
def envFail : Env :=
  { envBase with
    dry_run := false
    fyers_access_token := some "tok"
    fyers_quote_url := "https://quote.example"
    fyers_order_url := "https://order.example" }

/-! ## Helper lemmas -/

/-- Appending to the accumulator inside a left fold is `map`. -/
lemma foldl_snoc_eq_map {α β : Type} (f : α → β) :
    ∀ (xs : List α) (acc : List β),
      xs.foldl (fun l x => l ++ [f x]) acc = acc ++ xs.map f := by
  intro xs
  induction xs with
  | nil => intro acc; simp
  | cons x t ih => intro acc; simp [ih]

/-- A needle whose first character does not occur in `a` cannot start inside
`a`, so searching `a ++ b` is searching `b`. -/
lemma hasSub_append_of_head_notMem (k : Char) (K : List Char) :
    ∀ (a b : List Char), k ∉ a → hasSub (a ++ b) (k :: K) = hasSub b (k :: K) := by
  intro a
  induction a with
  | nil => intro b _; rfl
  | cons c t ih =>
    intro b ha
    have hkc : (k == c) = false := by
      simp only [beq_eq_false_iff_ne]
      intro h
      exact ha (by simp [h])
    have ht : k ∉ t := fun h => ha (List.mem_cons_of_mem c h)
    simp [hasSub, List.isPrefixOf, hkc, ih b ht]

/-- Prefixing the oracle-failure marker changes no keyword search: the marker
contains no B, S or H, so BUY/SELL/HOLD can only be found in the detail. -/
lemma parse_signal_marker (e : String) :
    parse_signal ("ERROR contacting OpenAI: " ++ e) = parse_signal e := by
  have hm : "ERROR contacting OpenAI: ".data.map Char.toUpper =
      "ERROR CONTACTING OPENAI: ".data := by decide
  have hud : (pyUpper ("ERROR contacting OpenAI: " ++ e)).data =
      "ERROR CONTACTING OPENAI: ".data ++ (pyUpper e).data := by
    simp [pyUpper, String.data_append, hm]
  have hbuy : "BUY".data = 'B' :: ['U', 'Y'] := by decide
  have hsell : "SELL".data = 'S' :: ['E', 'L', 'L'] := by decide
  have hhold : "HOLD".data = 'H' :: ['O', 'L', 'D'] := by decide
  have hB : pyIn "BUY" (pyUpper ("ERROR contacting OpenAI: " ++ e)) =
      pyIn "BUY" (pyUpper e) := by
    simp only [pyIn, hud, hbuy]
    exact hasSub_append_of_head_notMem 'B' ['U', 'Y'] _ _ (by decide)
  have hS : pyIn "SELL" (pyUpper ("ERROR contacting OpenAI: " ++ e)) =
      pyIn "SELL" (pyUpper e) := by
    simp only [pyIn, hud, hsell]
    exact hasSub_append_of_head_notMem 'S' ['E', 'L', 'L'] _ _ (by decide)
  have hH : pyIn "HOLD" (pyUpper ("ERROR contacting OpenAI: " ++ e)) =
      pyIn "HOLD" (pyUpper e) := by
    simp only [pyIn, hud, hhold]
    exact hasSub_append_of_head_notMem 'H' ['O', 'L', 'D'] _ _ (by decide)
  simp only [parse_signal, hB, hS, hH]

/-! ## Claim theorems -/

/-- Claim C2: `detect_type` evaluates its rules in the fixed priority order
(case-insensitive OPTION: prefix, then ETF:, then MF:, then contains-colon,
else INDEX), the first match winning, and the four spec examples classify as
stated, with the colon kept intact in the EQUITY case. -/
theorem detect_type_priority_order :
    (∀ s, pyStartsWith (pyUpper s) "OPTION:" = true →
      detect_type s = ("OPTION", pyDrop s 7)) ∧
    (∀ s, pyStartsWith (pyUpper s) "OPTION:" = false →
      pyStartsWith (pyUpper s) "ETF:" = true →
      detect_type s = ("ETF", pyDrop s 4)) ∧
    (∀ s, pyStartsWith (pyUpper s) "OPTION:" = false →
      pyStartsWith (pyUpper s) "ETF:" = false →
      pyStartsWith (pyUpper s) "MF:" = true →
      detect_type s = ("MF", pyDrop s 3)) ∧
    (∀ s, pyStartsWith (pyUpper s) "OPTION:" = false →
      pyStartsWith (pyUpper s) "ETF:" = false →
      pyStartsWith (pyUpper s) "MF:" = false →
      pyIn ":" s = true →
      detect_type s = ("EQUITY", s)) ∧
    (∀ s, pyStartsWith (pyUpper s) "OPTION:" = false →
      pyStartsWith (pyUpper s) "ETF:" = false →
      pyStartsWith (pyUpper s) "MF:" = false →
      pyIn ":" s = false →
      detect_type s = ("INDEX", s)) ∧
    detect_type "OPTION:NIFTY" = ("OPTION", "NIFTY") ∧
    detect_type "ETF:NIFTYBEES" = ("ETF", "NIFTYBEES") ∧
    detect_type "NSE:RELIANCE" = ("EQUITY", "NSE:RELIANCE") ∧
    detect_type "NIFTY50" = ("INDEX", "NIFTY50") := by
  refine ⟨?_, ?_, ?_, ?_, ?_, by decide, by decide, by decide, by decide⟩ <;>
    intro s <;> intros <;> simp [detect_type, *]

/-- Claim C2 witness: a token carrying both a case-insensitive OPTION: prefix
and a colon elsewhere is classified OPTION by the first rule. -/
theorem detect_type_priority_order_witness :
    pyStartsWith (pyUpper "Option:NSE:X") "OPTION:" = true ∧
    detect_type "Option:NSE:X" = ("OPTION", pyDrop "Option:NSE:X" 7) :=
  ⟨by decide, detect_type_priority_order.1 "Option:NSE:X" (by decide)⟩

/-- Claim C3: `parse_signal` does a case-insensitive substring search in the
fixed priority order BUY, SELL, HOLD, first keyword found anywhere winning,
UNKNOWN when none is found; the three spec examples parse as stated. -/
theorem parse_signal_priority_order :
    (∀ text, pyIn "BUY" (pyUpper text) = true → parse_signal text = "BUY") ∧
    (∀ text, pyIn "BUY" (pyUpper text) = false →
      pyIn "SELL" (pyUpper text) = true → parse_signal text = "SELL") ∧
    (∀ text, pyIn "BUY" (pyUpper text) = false →
      pyIn "SELL" (pyUpper text) = false →
      pyIn "HOLD" (pyUpper text) = true → parse_signal text = "HOLD") ∧
    (∀ text, pyIn "BUY" (pyUpper text) = false →
      pyIn "SELL" (pyUpper text) = false →
      pyIn "HOLD" (pyUpper text) = false → parse_signal text = "UNKNOWN") ∧
    parse_signal "You should BUY, though some say SELL" = "BUY" ∧
    parse_signal "Maybe HOLD for now" = "HOLD" ∧
    parse_signal "unclear outlook" = "UNKNOWN" := by
  refine ⟨?_, ?_, ?_, ?_, by decide, by decide, by decide⟩ <;>
    intro text <;> intros <;> simp [parse_signal, *]

/-- Claim C3 witness: a text containing both BUY and SELL resolves to BUY. -/
theorem parse_signal_priority_order_witness :
    pyIn "BUY" (pyUpper "You should BUY, though some say SELL") = true ∧
    parse_signal "You should BUY, though some say SELL" = "BUY" :=
  ⟨by decide,
   parse_signal_priority_order.1 "You should BUY, though some say SELL" (by decide)⟩

/-- Claim C10: the prefix rules of `detect_type` test an uppercased copy, but
the key is always sliced from the original token, so the key preserves the
raw token's casing: every key is the original token or a tail of it, and
classifying "option:nifty" yields the lowercase key "nifty". -/
theorem detect_type_key_preserves_case :
    (∀ s, (detect_type s).2 = pyDrop s 7 ∨ (detect_type s).2 = pyDrop s 4 ∨
      (detect_type s).2 = pyDrop s 3 ∨ (detect_type s).2 = s) ∧
    detect_type "option:nifty" = ("OPTION", "nifty") ∧
    ("nifty" : String) ≠ "NIFTY" := by
  refine ⟨?_, by decide, by decide⟩
  intro s
  cases h1 : pyStartsWith (pyUpper s) "OPTION:" <;>
    cases h2 : pyStartsWith (pyUpper s) "ETF:" <;>
      cases h3 : pyStartsWith (pyUpper s) "MF:" <;>
        cases h4 : pyIn ":" s <;>
          simp [detect_type, h1, h2, h3, h4]

/-- Claim C9: every QuoteResult out of `fetch_market_data` has exactly one of
price and error set: an error result has the price key absent, and a success
result (even with a null price value) has no error. -/
theorem quote_result_exclusive (env : Env) (sym : String) :
    ((fetch_market_data env sym).error = none ∧
      ((fetch_market_data env sym).last_price).isSome = true) ∨
    (((fetch_market_data env sym).error).isSome = true ∧
      (fetch_market_data env sym).last_price = none) := by
  cases h : pyTruthy env.fyers_quote_url && pyTruthyOpt env.fyers_access_token
  · simp [fetch_market_data, h]
  · cases hq : env.quote (detect_type sym).2 (detect_type sym).1 <;>
      simp [fetch_market_data, h, hq]

/-- Claim C8: `build_market_snapshot` is pure and emits, in input order,
exactly one line per result in the claimed format, joined by newlines between
the fixed header line and the fixed instruction line; determinism is the
statement that the output is this function of the input sequence alone. -/
theorem build_market_snapshot_spec_shape (rs : List QuoteResult) :
    build_market_snapshot rs =
      "Market Snapshot:\n" ++ pyJoin "\n" (rs.map renderLineSpec) ++
        "\n\nProvide a single-line BUY/SELL/HOLD signal **for each symbol** with a short reason." := by
  have hfun : (fun (lines : List String) (s : QuoteResult) =>
      match s.error with
      | some e => lines ++ [s.symbol ++ " (" ++ s.type ++ "): ERROR → " ++ e]
      | none => lines ++ [s.symbol ++ " (" ++ s.type ++ "): price=" ++ pyShowPrice s.last_price]) =
      fun lines s => lines ++ [renderLineSpec s] := by
    funext lines s
    rcases s with ⟨sym, ty, lp, err, raw⟩
    cases err <;> rfl
  simp only [build_market_snapshot, hfun, foldl_snoc_eq_map, List.nil_append]

/-- Claim C4 counterexample: in dry-run mode the gateway's detail string is
"Order not executed", not the claimed "order not executed". -/
theorem dry_run_detail_counterexample :
    (fyers_order envBase payload0).response =
      .dict "dry_run" "Order not executed" (some payload0) ∧
    OrderResponseVal.dict "dry_run" "Order not executed" (some payload0) ≠
      .dict "dry_run" "order not executed" (some payload0) := by
  exact ⟨rfl, by decide⟩

/-- Claim C4 as amended: with the dry-run flag set, for every payload and
every configuration the gateway returns the dry_run response with detail
"Order not executed" carrying the input payload, and no network call is
issued. -/
theorem dry_run_invariant (env : Env) (payload : OrderPayload)
    (h : env.dry_run = true) :
    fyers_order env payload =
      ⟨false, .dict "dry_run" "Order not executed" (some payload)⟩ := by
  simp [fyers_order, h]

/-- Claim C4 witness: dry-run short-circuits even with endpoint and
credential fully configured. -/
theorem dry_run_invariant_witness :
    ({ envFail with dry_run := true } : Env).dry_run = true ∧
    fyers_order { envFail with dry_run := true } payload0 =
      ⟨false, .dict "dry_run" "Order not executed" (some payload0)⟩ :=
  ⟨rfl, dry_run_invariant { envFail with dry_run := true } payload0 rfl⟩

/-- Claim C5 counterexample: in live mode with missing configuration the
gateway's detail string is "Order URL or token missing", not the claimed
"missing endpoint or credential". -/
theorem live_guard_detail_counterexample :
    fyers_order envLiveMissing payload0 =
      ⟨false, .dict "error" "Order URL or token missing" none⟩ ∧
    OrderResponseVal.dict "error" "Order URL or token missing" none ≠
      .dict "error" "missing endpoint or credential" none := by
  exact ⟨rfl, by decide⟩

/-- Claim C5 as amended: with the dry-run flag false and the order endpoint
or the access credential missing (falsy), the gateway returns the error
response with detail "Order URL or token missing" and no network call is
performed. -/
theorem live_mode_guard (env : Env) (payload : OrderPayload)
    (h1 : env.dry_run = false)
    (h2 : pyTruthy env.fyers_order_url = false ∨
      pyTruthyOpt env.fyers_access_token = false) :
    fyers_order env payload =
      ⟨false, .dict "error" "Order URL or token missing" none⟩ := by
  rcases h2 with h2 | h2 <;> simp [fyers_order, h1, h2]

/-- Claim C5 witness: live mode with no endpoint and no token configured. -/
theorem live_mode_guard_witness :
    envLiveMissing.dry_run = false ∧
    (pyTruthy envLiveMissing.fyers_order_url = false ∨
      pyTruthyOpt envLiveMissing.fyers_access_token = false) ∧
    fyers_order envLiveMissing payload0 =
      ⟨false, .dict "error" "Order URL or token missing" none⟩ :=
  ⟨rfl, Or.inl (by decide),
   live_mode_guard envLiveMissing payload0 rfl (Or.inl (by decide))⟩

/-- Claim C6: the fallback price is a function of the process's runtime
string hash. Two environments identical except for that hash (as two Python
processes with different hash salts are) give different prices for the same
token, so the price is not stable across processes. -/
theorem fallback_price_process_dependent :
    (fetch_market_data envBase "NIFTY50").last_price = some (some 1000) ∧
    (fetch_market_data envHashB "NIFTY50").last_price = some (some 1001) ∧
    fetch_market_data envBase "NIFTY50" ≠ fetch_market_data envHashB "NIFTY50" := by
  refine ⟨by decide, by decide, by decide⟩

/-- Claim C7 counterexample: an oracle failure whose detail text is "buy"
produces the synthesized reply "ERROR contacting OpenAI: buy", which the
parser resolves to BUY, not UNKNOWN — so the claim's "producing UNKNOWN for
every possible failure detail text" is false. -/
theorem oracle_failure_unknown_counterexample :
    ask_gpt envOracleBuy "sp" "ms" = "ERROR contacting OpenAI: buy" ∧
    parse_signal "ERROR contacting OpenAI: buy" = "BUY" ∧
    ("BUY" : String) ≠ "UNKNOWN" := by
  exact ⟨rfl, by decide, by decide⟩

/-- Claim C7 as amended: on any oracle failure the client returns the fixed
marker "ERROR contacting OpenAI: " followed by the failure detail (never
raising); the marker itself contributes no keyword, so the reply parses to
UNKNOWN whenever the detail contains none of BUY/SELL/HOLD
(case-insensitively); and the reply flows into the run record's signal text,
which is appended to the journal when the write succeeds. -/
theorem oracle_failure_fail_open (env : Env) (file0 : List RunRecord) (e : String)
    (hor : env.oracle = fun _ _ => Except.error e) :
    (∀ sp ms, ask_gpt env sp ms = "ERROR contacting OpenAI: " ++ e) ∧
    (pyIn "BUY" (pyUpper e) = false → pyIn "SELL" (pyUpper e) = false →
      pyIn "HOLD" (pyUpper e) = false →
      parse_signal ("ERROR contacting OpenAI: " ++ e) = "UNKNOWN") ∧
    (mainRun env file0).record.signal_text = "ERROR contacting OpenAI: " ++ e ∧
    (mainRun env file0).record.parsed_signal =
      parse_signal ("ERROR contacting OpenAI: " ++ e) ∧
    (env.journalOk = true →
      (mainRun env file0).journal = file0 ++ [(mainRun env file0).record]) := by
  refine ⟨?_, ?_, ?_, ?_, ?_⟩
  · intro sp ms
    simp [ask_gpt, hor]
  · intro h1 h2 h3
    rw [parse_signal_marker]
    simp [parse_signal, h1, h2, h3]
  · simp [mainRun, ask_gpt, hor]
  · simp [mainRun, ask_gpt, hor]
  · intro hj
    simp [mainRun, write_log, hj]

/-- Claim C7 witness: a concrete run with a failing oracle and a keyword-free
failure detail. -/
theorem oracle_failure_fail_open_witness :
    envBase.oracle = (fun _ _ => Except.error "oracle down") ∧
    pyIn "BUY" (pyUpper "oracle down") = false ∧
    ask_gpt envBase "sp" "ms" = "ERROR contacting OpenAI: oracle down" ∧
    parse_signal ("ERROR contacting OpenAI: " ++ "oracle down") = "UNKNOWN" ∧
    (mainRun envBase []).record.signal_text = "ERROR contacting OpenAI: oracle down" := by
  have h := oracle_failure_fail_open envBase [] "oracle down" rfl
  exact ⟨rfl, by decide, h.1 "sp" "ms", h.2.1 (by decide) (by decide) (by decide),
    h.2.2.1⟩

/-- Claim C1: the fail-open contract. A failing quote call is captured into
the error-shaped QuoteResult; a failing oracle call is captured into the
marker reply; a failing order submission is captured into the error
response; and whether the journal write succeeds or fails, the run record
and console summary of the run are unchanged — in particular a failed
journal write leaves the file untouched and still yields the summary. -/
theorem fail_open_contract :
    (∀ env sym e, pyTruthy env.fyers_quote_url = true →
      pyTruthyOpt env.fyers_access_token = true →
      env.quote (detect_type sym).2 (detect_type sym).1 = .error e →
      fetch_market_data env sym =
        { symbol := sym, type := (detect_type sym).1, last_price := none,
          error := some e, raw := none }) ∧
    (∀ env sp ms e, env.oracle sp ms = .error e →
      ask_gpt env sp ms = "ERROR contacting OpenAI: " ++ e) ∧
    (∀ env payload e, env.dry_run = false →
      pyTruthy env.fyers_order_url = true →
      pyTruthyOpt env.fyers_access_token = true →
      env.orderNet payload = .error e →
      fyers_order env payload = ⟨true, .dict "error" e none⟩) ∧
    (∀ env file0 b,
      (mainRun { env with journalOk := b } file0).summary =
        (mainRun env file0).summary ∧
      (mainRun { env with journalOk := b } file0).record =
        (mainRun env file0).record ∧
      (mainRun { env with journalOk := false } file0).journal = file0 ∧
      (mainRun env file0).summary.banner = "✔ Bot run complete") := by
  refine ⟨?_, ?_, ?_, ?_⟩
  · intro env sym e h1 h2 hq
    simp [fetch_market_data, h1, h2, hq]
  · intro env sp ms e hor
    simp [ask_gpt, hor]
  · intro env payload e h1 h2 h3 hnet
    simp [fyers_order, h1, h2, h3, hnet]
  · intro env file0 b
    exact ⟨rfl, rfl, rfl, rfl⟩

/-- Claim C1 witness: a fully configured live run in which the quote service,
the oracle and the order endpoint all fail, and the journal write fails too:
every stage yields its soft-failure value. -/
theorem fail_open_contract_witness :
    fetch_market_data envFail "NIFTY50" =
      { symbol := "NIFTY50", type := "INDEX", last_price := none,
        error := some "quote down", raw := none } ∧
    ask_gpt envFail "sp" "ms" = "ERROR contacting OpenAI: oracle down" ∧
    fyers_order envFail payload0 = ⟨true, .dict "error" "order down" none⟩ ∧
    (mainRun { envFail with journalOk := false } []).journal = [] ∧
    (mainRun { envFail with journalOk := false } []).summary.banner =
      "✔ Bot run complete" :=
  ⟨fail_open_contract.1 envFail "NIFTY50" "quote down" (by decide) (by decide) rfl,
   fail_open_contract.2.1 envFail "sp" "ms" "oracle down" rfl,
   fail_open_contract.2.2.1 envFail payload0 "order down" rfl (by decide) (by decide) rfl,
   (fail_open_contract.2.2.2 envFail [] false).2.2.1,
   (fail_open_contract.2.2.2 { envFail with journalOk := false } [] false).2.2.2⟩
